import Mathlib

/-!
Shallow embedding of the Mermaid flowchart core of this repository:
the style definitions (`ClassDef`, `LinkDef`), nodes (`ChartNode`),
edges (`Connection`), directives (`Directive`), the aggregate graph
(`FlowChart`) with its `render`/`subRender` routines, and the
state-machine adapter (`processStately`).

Object references are modelled as indices into explicit heaps
(`Heap.nodes`, `Heap.classes`); JavaScript `null`/`undefined` object
references are modelled with `Option`.  The transient per-node
"hasBeenRendered" flag and the module-global subgraph-name generator
are carried in an explicit render state `RState` threaded through the
rendering functions.  JavaScript exceptions (`TypeError` on property
access of `undefined`/`null`, validation errors) are modelled with
`Except String`.
-/

/-- The five optional style properties shared by `ClassDef` (node styles)
and `LinkDef` (edge styles): `{color, fill, stroke, strokeWidth, strokeDash}`,
each independently nullable (source: `classdef.js` constructor). -/
structure StyleProps where
  color : Option String
  fill : Option String
  stroke : Option String
  strokeWidth : Option String
  strokeDash : Option String
deriving DecidableEq

/-- The key-value pairs of a style object in `Object.entries` order, which is
the insertion order of the `#style` initializer in `classdef.js` / `linkdef.js`:
color, fill, stroke, strokeWidth, strokeDash. -/
def stylePairs (s : StyleProps) : List (String × Option String) :=
  [("color", s.color), ("fill", s.fill), ("stroke", s.stroke),
   ("strokeWidth", s.strokeWidth), ("strokeDash", s.strokeDash)]

/-- The style tokens emitted by `ClassDef.render` (classdef.js lines 179-183):
each non-null property as `key:value`, translating only `strokeWidth` to
`stroke-width`; every other key (including `strokeDash`) passes through. -/
def classDefStyles (s : StyleProps) : List String :=
  (stylePairs s).filterMap fun p =>
    p.2.map fun v => (if p.1 = "strokeWidth" then "stroke-width" else p.1) ++ ":" ++ v

/-- `ClassDef.render` (classdef.js lines 176-187):
`"\nclassDef " + name + " " + styles.join(",") + "\n"`. -/
def classDefRender (name : String) (s : StyleProps) : String :=
  "\nclassDef " ++ name ++ " " ++ String.intercalate "," (classDefStyles s) ++ "\n"

/-- The style tokens emitted by `LinkDef.render` (linkdef.js lines 79-87):
each non-null property, translating `strokeWidth` to `stroke-width` and
`strokeDash` to `stroke-dasharray`.  The identical loop appears in
`FlowChart.subRender` (for the subgraph `style` line). -/
def linkDefStyles (s : StyleProps) : List String :=
  (stylePairs s).filterMap fun p =>
    p.2.map fun v =>
      (if p.1 = "strokeWidth" then "stroke-width"
       else if p.1 = "strokeDash" then "stroke-dasharray" else p.1) ++ ":" ++ v

/-- `LinkDef.render(n = ["default"])` (linkdef.js lines 76-91):
`"\nlinkStyle " + n.join(",") + " " + styles.join(",")`. -/
def linkDefRender (n : List String) (s : StyleProps) : String :=
  "\nlinkStyle " ++ String.intercalate "," n ++ " " ++
    String.intercalate "," (linkDefStyles s)

/-- A node shape entry of the `NodeShape` enum (chart-node.js): the start and
end bracket strings and the shape name. -/
structure NodeShapeData where
  start : String
  stop : String
  sname : String
deriving DecidableEq

/-- The `NodeShape` enum (chart-node.js lines 294-316): shape name to bracket
pair.  Literal brace characters are written with escapes. -/
def nodeShapeTable : List (String × NodeShapeData) :=
  [("round-rect", ⟨"(", ")", "round-rect"⟩),
   ("pill", ⟨"([", "])", "pill"⟩),
   ("stadium", ⟨"([", "])", "stadium"⟩),
   ("subroutine", ⟨"[[", "]]", "subroutine"⟩),
   ("cylinder", ⟨"[(", ")]", "cylinder"⟩),
   ("database", ⟨"[(", ")]", "database"⟩),
   ("circle", ⟨"((", "))", "circle"⟩),
   ("asymmetric", ⟨">", "]", "asymmetric"⟩),
   ("flag", ⟨">", "]", "flag"⟩),
   ("diamond", ⟨"\x7b", "\x7d", "diamond"⟩),
   ("rhombus", ⟨"\x7b", "\x7d", "rhombus"⟩),
   ("hex", ⟨"\x7b\x7b", "\x7d\x7d", "hex"⟩),
   ("hexagon", ⟨"\x7b\x7b", "\x7d\x7d", "hexagon"⟩),
   ("parallel-r", ⟨"[/", "/]", "parallel-r"⟩),
   ("skew-r", ⟨"[/", "/]", "skew-r"⟩),
   ("parallel-l", ⟨"[\\", "\\]", "parallel-l"⟩),
   ("skew-l", ⟨"[\\", "\\]", "skew-l"⟩),
   ("trapezoid", ⟨"[/", "\\]", "trapezoid"⟩),
   ("trapezoid-alt", ⟨"[\\", "/]", "trapezoid-alt"⟩),
   ("double-circle", ⟨"(((", ")))", "double-circle"⟩),
   ("default", ⟨"[", "]", "default"⟩)]

/-- The default node shape `NodeShape.default`: square brackets. -/
def defaultShape : NodeShapeData := ⟨"[", "]", "default"⟩

/-- `NodeShape.match` (the `Enum.match` membership check of utils.js applied to
the `NodeShape` static keys). -/
def nodeShapeMatch (s : String) : Bool :=
  (nodeShapeTable.lookup s).isSome

/-- A `ChartNode`'s persistent data: `#id`, `#node_text`, `#node_shape`
(null or a shape entry), and `#node_class` (null or a reference, by heap
index, to a `ClassDef`).  The transient `#hasBeenRendered` flag lives in
`RState`, keyed by the node's heap index. -/
structure NodeData where
  id : String
  text : String
  shape : Option NodeShapeData
  nodeClass : Option Nat
deriving DecidableEq

/-- A named node-style class stored in the class heap: the `ClassDef`'s
`#name` and `#style`. -/
structure ClassData where
  name : String
  props : StyleProps
deriving DecidableEq

/-- The heaps of allocated `ChartNode` and `ClassDef` objects.  Object
identity (JavaScript `===`) is index equality. -/
structure Heap where
  nodes : List NodeData
  classes : List ClassData
deriving DecidableEq

/-- The mutable state threaded through rendering: each node's transient
`#hasBeenRendered` flag (by heap index) and the counter of the module-global
`subgraphGen` id generator used by `subRender` for unnamed subgraphs. -/
structure RState where
  flags : Nat → Bool
  subCtr : Nat

/-- `ChartNode.render` (chart-node.js lines 258-269): if the flag is unset and
the text is nonempty, emit `id` followed by the shape-wrapped text (shape
defaulting to square brackets); otherwise just `id`.  Sets the flag. -/
def nodeRender (H : Heap) (st : RState) (nid : Nat) : String × RState :=
  let nd := H.nodes.getD nid ⟨"", "", none, none⟩
  let txt :=
    if st.flags nid then ""
    else if nd.text ≠ "" then
      (nd.shape.getD defaultShape).start ++ nd.text ++ (nd.shape.getD defaultShape).stop
    else ""
  (nd.id ++ txt, ⟨fun j => if j = nid then true else st.flags j, st.subCtr⟩)

/-- An endpoint descriptor built by `Connection.from` / `Connection.to`:
`{node, arrow, arrowStyle}`.  `node` is `null` when the call omitted it. -/
structure EndPt where
  node : Option Nat
  arrow : Bool
  arrowStyle : String
deriving DecidableEq

/-- A `Connection`'s data: `#depth` (an integer here; see `connectionNew` for
the constructor's full numeric behaviour), the `from_node` / `to_node`
endpoint descriptors (`none` when `from`/`to` was never called), `link_style`,
`link_text`, and `#link_class` (the copied `LinkDef`, if set). -/
structure Conn where
  depth : Nat
  fromEp : Option EndPt
  toEp : Option EndPt
  linkStyle : Option String
  linkText : Option String
  linkClass : Option StyleProps
deriving DecidableEq

/-- `getArrowStyle` (connection.js lines 237-246): `"round"` gives `o`,
`"x"` gives `x`, anything else gives the directional default `<` or `>`. -/
def getArrowStyle (style : String) (left : Bool) : String :=
  if style = "round" then "o"
  else if style = "x" then "x"
  else if left then "<" else ">"

/-- The line length computed by `Connection.render` (connection.js lines
202-204): `3 + depth`, minus one if either end has an arrow, plus one if the
result is even and the line style is dotted. -/
def lineLen (depth : Nat) (anyArrow : Bool) (dotted : Bool) : Nat :=
  let l := 3 + depth
  let l := if anyArrow then l - 1 else l
  if l % 2 == 0 && dotted then l + 1 else l

/-- The line body built by `Connection.render` (connection.js lines 205-216):
`n` glyphs chosen by the link style (alternating `-`/`.` for dotted, `=` for
thick, `-` otherwise), joined. -/
def lineBody (n : Nat) (style : Option String) : String :=
  String.mk ((List.range n).map fun i =>
    if style = some "dotted" then (if i % 2 == 0 then '-' else '.')
    else if style = some "thick" then '=' else '-')

/-- Whether an optional string is JavaScript-truthy (non-null and nonempty),
as tested by `this.link_text ?` in `Connection.render`. -/
def jsTruthyS : Option String → Bool
  | some s => s ≠ ""
  | none => false

/-- `Connection.render` (connection.js lines 196-226).  Reading a property of
a missing (`undefined`) endpoint descriptor, or calling `render` on a `null`
endpoint node, throws a `TypeError`. -/
def connRender (H : Heap) (c : Conn) (st : RState) : Except String (String × RState) :=
  match c.fromEp with
  | none => .error "TypeError: Cannot read properties of undefined"
  | some fromN =>
    match c.toEp with
    | none => .error "TypeError: Cannot read properties of undefined"
    | some toN =>
      let start := getArrowStyle fromN.arrowStyle fromN.arrow
      let endG := getArrowStyle toN.arrowStyle (!toN.arrow)
      let line := lineBody (lineLen c.depth (fromN.arrow || toN.arrow)
        (c.linkStyle == some "dotted")) c.linkStyle
      match fromN.node with
      | none => .error "TypeError: Cannot read properties of null"
      | some nf =>
        let p1 := nodeRender H st nf
        match toN.node with
        | none => .error "TypeError: Cannot read properties of null"
        | some nt =>
          let p2 := nodeRender H p1.2 nt
          .ok (p1.1 ++ (if fromN.arrow then start else " ") ++ line ++
            (if toN.arrow then endG else "") ++
            (if jsTruthyS c.linkText then "|" ++ c.linkText.getD "" ++ "| " else " ") ++
            p2.1, p2.2)

/-- A directive's data (directive.js): `#theme`, `#fontFamily`, `#variables`
(a key-value map whose values may be `undefined`), and `#flowchart` (null, or
an insertion-ordered key-value map). -/
structure DirectiveData where
  theme : Option String
  fontFamily : Option String
  varsMap : Option (List (String × Option String))
  flowchart : Option (List (String × String))
deriving DecidableEq

/-- Sets key `k` to `v` in an insertion-ordered map, JavaScript-object style:
an existing key keeps its position, a new key goes to the end. -/
def setKey (l : List (String × String)) (k v : String) : List (String × String) :=
  if l.any (fun p => p.1 = k) then l.map (fun p => if p.1 = k then (k, v) else p)
  else l ++ [(k, v)]

/-- Likewise for maps with possibly-`undefined` values. -/
def setKeyO (l : List (String × Option String)) (k : String) (v : Option String) :
    List (String × Option String) :=
  if l.any (fun p => p.1 = k) then l.map (fun p => if p.1 = k then (k, v) else p)
  else l ++ [(k, v)]

/-- `JSON.stringify` of a string-valued object as used for `themeVariables`
in `Directive.render`; entries with `undefined` values are omitted. -/
def jsonStringify (kvs : List (String × Option String)) : String :=
  "\x7b" ++ String.intercalate ","
    (kvs.filterMap fun p => p.2.map fun v => "\"" ++ p.1 ++ "\":\"" ++ v ++ "\"") ++ "\x7d"

/-- `Directive.render` (directive.js lines 189-206): the init comment line
with theme, font family, variables and flowchart options, omitting unset
fields.  `theme`/`fontFamily` are included only when truthy; `variables` and
`flowchart` whenever the object is present. -/
def directiveRender (d : DirectiveData) : String :=
  let args :=
    (match d.theme with
     | some t => if t ≠ "" then ["\"theme\": \"" ++ t ++ "\""] else []
     | none => []) ++
    (match d.fontFamily with
     | some f => if f ≠ "" then ["\"fontFamily\": \"" ++ f ++ "\""] else []
     | none => []) ++
    (match d.varsMap with
     | some vs => ["\"themeVariables\": " ++ jsonStringify vs]
     | none => []) ++
    (match d.flowchart with
     | some fl => ["\"flowchart\": \x7b" ++ String.intercalate ","
         (fl.map fun p => "\"" ++ p.1 ++ "\": \"" ++ p.2 ++ "\"") ++ "\x7d"]
     | none => [])
  "%%\x7b init: \x7b" ++ String.intercalate ", " args ++ "\x7d \x7d%%\n"

/-- The `Curve` enum of directive.js (lines 221-234). -/
def curveList : List String :=
  ["basis", "bumpX", "bumpY", "cardinal", "catmullRom", "linear",
   "monotoneX", "monotoneY", "natural", "step", "stepAfter", "stepBefore"]

/-- The `FlowProps` enum of directive.js (lines 241-249). -/
def flowPropsList : List String :=
  ["titleTopMargin", "diagramPadding", "htmlLabels", "nodeSpacing",
   "rankSpacing", "curve", "useMaxWidth"]

/-- `Directive.curve(value)` (directive.js lines 73-85).  Result is the
thrown error (if any) paired with the directive state after the call: note
that `#flowchart` is initialized to an empty object before validation, so a
failed call leaves that mutation behind. -/
def curveJS (d : DirectiveData) (value : Option String) :
    Option String × DirectiveData :=
  let fl := d.flowchart.getD []
  match value with
  | none =>
    let fl2 := fl.filter fun p => p.1 ≠ "curve"
    (none, { d with flowchart := if fl2.isEmpty then none else some fl2 })
  | some v =>
    if v ∈ curveList then
      let fl2 := setKey fl "curve" v
      (none, { d with flowchart := if fl2.isEmpty then none else some fl2 })
    else ("Value must match a valid curve option.", { d with flowchart := some fl })

/-- `Directive.flowchart(value)` (directive.js lines 111-133) as called with a
string-valued (possibly `undefined`-valued) object: validates every key
against `FlowProps`, skips falsy values, and merges into `#flowchart`
(initializing it to an empty object first). -/
def flowchartJS (d : DirectiveData) (kvs : List (String × Option String)) :
    Except String DirectiveData :=
  if kvs.any (fun p => p.1 ∉ flowPropsList) then
    .error "RangeError: not a valid flowchart property."
  else
    let add := kvs.foldl (fun acc p =>
      match p.2 with
      | some v => if v ≠ "" then setKey acc p.1 v else acc
      | none => acc) []
    .ok { d with flowchart := some (add.foldl (fun acc p => setKey acc p.1 p.2) (d.flowchart.getD [])) }

/-- `Directive.variables(obj)` (directive.js lines 180-183): merge the given
entries into `#variables`. -/
def variablesJS (d : DirectiveData) (kvs : List (String × Option String)) :
    DirectiveData :=
  { d with varsMap := some (kvs.foldl (fun acc p => setKeyO acc p.1 p.2) (d.varsMap.getD [])) }

/-- A subgraph as consumed by `FlowChart.subRender` (part_001 lines 459-493):
its `#name`, connections, node list, and optional container style (a class
heap reference).  `subRender` reads no other `FlowChart` fields (in
particular it never renders the subgraph's own nested subgraphs). -/
structure SubGraph where
  name : Option String
  connections : List Conn
  nodes : List (Option Nat)
  style : Option Nat
deriving DecidableEq

/-- A `FlowChart`'s state (part_001): direction, directives, connections,
node references (entries can be `null`: `addConnection` pushes a
connection's `null` endpoint node unchecked), class references, default
class/link (stored as copies), name, container style, and subgraphs. -/
structure Chart where
  direction : String
  directives : List DirectiveData
  connections : List Conn
  nodes : List (Option Nat)
  classes : List Nat
  defaultClass : Option StyleProps
  defaultLink : Option StyleProps
  name : Option String
  style : Option Nat
  subgraphs : List SubGraph
deriving DecidableEq

/-- A fresh `new FlowChart(name)` (part_001 lines 165-176): direction `TD`,
empty collections, no defaults, no style. -/
def newFlowChart (name : Option String) : Chart :=
  ⟨"TD", [], [], [], [], none, none, name, none, []⟩

/-- Reads an object reference that may be JavaScript `null`/`undefined`;
reading through it throws a `TypeError`. -/
def jsGet (x : Option α) (msg : String) : Except String α :=
  match x with
  | some v => .ok v
  | none => .error msg

/-- Threads the render state through a list of rendering actions, collecting
the rendered strings (the `.map(c => c.render())` pattern). -/
def renderListE (f : α → RState → Except String (String × RState)) :
    List α → RState → Except String (List String × RState)
  | [], st => .ok ([], st)
  | a :: as, st =>
    match f a st with
    | .error e => .error e
    | .ok (s, st') =>
      match renderListE f as st' with
      | .error e => .error e
      | .ok (ss, st'') => .ok (s :: ss, st'')

/-- The node-declaration pass of `FlowChart.render` (part_001 lines 412-418):
for each node in order, if its flag is unset, render it (setting the flag)
and collect the result.  A `null` entry throws on the flag read. -/
def nodeDecls (H : Heap) : List (Option Nat) → RState → Except String (List String × RState)
  | [], st => .ok ([], st)
  | x :: xs, st =>
    match x with
    | none => .error "TypeError: Cannot read properties of null"
    | some nid =>
      if st.flags nid then nodeDecls H xs st
      else
        let p := nodeRender H st nid
        match nodeDecls H xs p.2 with
        | .error e => .error e
        | .ok (ss, st'') => .ok (p.1 :: ss, st'')

/-- The filter pass of `FlowChart.subRender` (part_001 line 467): the nodes
whose flag is unset, in order.  A `null` entry throws on the flag read. -/
def subNodeFilter (st : RState) : List (Option Nat) → Except String (List Nat)
  | [] => .ok []
  | x :: xs =>
    match x with
    | none => .error "TypeError: Cannot read properties of null"
    | some nid =>
      match subNodeFilter st xs with
      | .error e => .error e
      | .ok ids => .ok (if st.flags nid then ids else nid :: ids)

/-- The reset pass (`this.nodes.forEach(n => n.reset())`, part_001 lines
422-424 and 488-490): clears every listed node's flag.  A `null` entry
throws on the `reset` call. -/
def resetNodes : List (Option Nat) → RState → Except String RState
  | [], st => .ok st
  | x :: xs, st =>
    match x with
    | none => .error "TypeError: Cannot read properties of null"
    | some nid =>
      resetNodes xs ⟨fun j => if j = nid then false else st.flags j, st.subCtr⟩

/-- Dereferences a list of node references; a `null` entry throws. -/
def lookupNodeIds : List (Option Nat) → Except String (List Nat)
  | [] => .ok []
  | x :: xs =>
    match x with
    | none => .error "TypeError: Cannot read properties of null"
    | some nid =>
      match lookupNodeIds xs with
      | .error e => .error e
      | .ok ids => .ok (nid :: ids)

/-- One `class <ids> <name>` assignment line of `FlowChart.render` (part_001
lines 428-441): the ids of the nodes whose `#node_class` is (by identity)
the given class, joined with commas.  Reading `nodeClass` of a `null` node
entry throws. -/
def classLine (H : Heap) (chNodes : List (Option Nat)) (cid : Nat) : Except String String :=
  match lookupNodeIds chNodes with
  | .error e => .error e
  | .ok ids =>
    let sel := ids.filterMap fun nid =>
      let nd := H.nodes.getD nid ⟨"", "", none, none⟩
      if nd.nodeClass = some cid then some nd.id else none
    .ok ("class " ++ String.intercalate "," sel ++ " " ++
      (H.classes.getD cid ⟨"", ⟨none, none, none, none, none⟩⟩).name ++ "\n")

/-- The per-class tail of `FlowChart.render`: each class definition's
declaration followed by its `class` assignment line, concatenated. -/
def classesPart (H : Heap) (chNodes : List (Option Nat)) :
    List Nat → Except String String
  | [] => .ok ""
  | cid :: rest =>
    match classLine H chNodes cid with
    | .error e => .error e
    | .ok line =>
      match classesPart H chNodes rest with
      | .error e => .error e
      | .ok tail =>
        let cd := H.classes.getD cid ⟨"", ⟨none, none, none, none, none⟩⟩
        .ok (classDefRender cd.name cd.props ++ line ++ tail)

/-- `FlowChart.subRender` (part_001 lines 459-493): the `subgraph <name>`
block with indented edge lines and remaining node declarations, the optional
`style <name> <decls>` line (spelling both stroke keys in output form, like
`LinkDef.render`), and a reset of the subgraph's own nodes.  An absent name
draws a fresh `sub<n>` from the module-global generator. -/
def subRenderF (H : Heap) (g : SubGraph) (st : RState) : Except String (String × RState) :=
  let nmSt : String × RState :=
    match g.name with
    | some n => (n, st)
    | none => ("sub" ++ toString (st.subCtr + 1), ⟨st.flags, st.subCtr + 1⟩)
  match renderListE (fun c st => (connRender H c st).map (fun p => ("  " ++ p.1, p.2)))
      g.connections nmSt.2 with
  | .error e => .error e
  | .ok (connStrs, st1) =>
    match subNodeFilter st1 g.nodes with
    | .error e => .error e
    | .ok ids =>
      match renderListE (fun nid st => .ok (nodeRender H st nid)) ids st1 with
      | .error e => .error e
      | .ok (nodeStrs, st2) =>
        let md := "\nsubgraph " ++ nmSt.1 ++ "\n" ++
          String.intercalate "\n" connStrs ++ "\n" ++
          String.intercalate "\n" nodeStrs ++ "end\n"
        let md := md ++
          (match g.style with
           | some cid =>
             "style " ++ (match g.name with | some n => n | none => "null") ++ " " ++
               String.intercalate ","
                 (linkDefStyles (H.classes.getD cid ⟨"", ⟨none, none, none, none, none⟩⟩).props)
           | none => "")
        match resetNodes g.nodes st2 with
        | .error e => .error e
        | .ok st3 => .ok (md, st3)

/-- `FlowChart.render` (part_001 lines 403-452): directives, the
`flowchart <direction>` header, edge lines, declarations of not-yet-rendered
nodes, subgraph blocks, a reset of all node flags, then the default node
style, each class with its assignment line, the default link style, and the
`linkStyle` declaration of every connection carrying a link class. -/
def chartRender (H : Heap) (ch : Chart) (st : RState) : Except String (String × RState) :=
  let dirPart :=
    if ch.directives.length ≠ 0 then
      String.intercalate "\n" (ch.directives.map directiveRender)
    else ""
  match renderListE (connRender H) ch.connections st with
  | .error e => .error e
  | .ok (connStrs, st1) =>
    match nodeDecls H ch.nodes st1 with
    | .error e => .error e
    | .ok (declStrs, st2) =>
      match renderListE (subRenderF H) ch.subgraphs st2 with
      | .error e => .error e
      | .ok (subStrs, st3) =>
        match resetNodes ch.nodes st3 with
        | .error e => .error e
        | .ok st4 =>
          let md := dirPart ++ "flowchart " ++ ch.direction ++ "\n" ++
            String.intercalate "\n" connStrs ++ "\n" ++
            String.intercalate "\n" declStrs ++
            String.intercalate "\n" subStrs
          let md := md ++
            (match ch.defaultClass with
             | some s => classDefRender "default" s
             | none => "")
          match classesPart H ch.nodes ch.classes with
          | .error e => .error e
          | .ok clsPart =>
            let md := md ++ clsPart ++
              (match ch.defaultLink with
               | some s => linkDefRender ["default"] s
               | none => "") ++
              String.join (ch.connections.filterMap fun c =>
                c.linkClass.map (linkDefRender ["default"]))
            .ok (md, st4)

/-- JavaScript `parseInt` on a number with a plain decimal string form:
truncation toward zero.  (Model restriction: faithful for arguments whose
`toString` has no exponent, which covers all integers and all rationals of
magnitude at least 10^-6 and below 10^21.) -/
def jsTrunc (q : ℚ) : ℤ := if 0 ≤ q then ⌊q⌋ else ⌈q⌉

/-- The `Connection` constructor (connection.js lines 114-123):
`if (depth !== undefined && !parseInt(depth)) throw`, then
`#depth = depth || 0`.  Returns the stored `#depth`. -/
def connectionNew (depth : Option ℚ) : Except String ℚ :=
  match depth with
  | none => .ok 0
  | some q =>
    if jsTrunc q = 0 then .error "If included, depth must be an integer."
    else .ok (if q = 0 then 0 else q)

/-- A JavaScript value passed to a typed setter or adder: a `ChartNode`
reference, a `ClassDef` reference (class heap index), a `Connection`, a
`Directive`, a `FlowChart` (in subgraph position), a number, a string, or
`null`. -/
inductive JSVal where
  | node (nid : Nat)
  | cls (cid : Nat)
  | conn (c : Conn)
  | directive (d : DirectiveData)
  | subgraph (g : SubGraph)
  | num (n : Int)
  | str (s : String)
  | nullv
deriving DecidableEq

/-- Whether a value is a `ChartNode` (`instanceof ChartNode`). -/
def isNodeVal : JSVal → Bool
  | .node _ => true
  | _ => false

/-- Whether a value is a `ClassDef` (`instanceof ClassDef`). -/
def isClsVal : JSVal → Bool
  | .cls _ => true
  | _ => false

/-- Whether a value is a `Connection` (`instanceof Connection`). -/
def isConnVal : JSVal → Bool
  | .conn _ => true
  | _ => false

/-- Whether a value is a `Directive` (`instanceof Directive`). -/
def isDirVal : JSVal → Bool
  | .directive _ => true
  | _ => false

/-- `FlowChart.addNode(...nodes)` (part_001 lines 266-273): throws if any
argument is not a `ChartNode` (before any mutation), then appends each node
not already present by identity. -/
def addNodeJS (ch : Chart) (args : List JSVal) : Except String Chart :=
  if args.any (fun a => !isNodeVal a) then
    .error "TypeError: nodes must contain only ChartNode objects."
  else
    let ns2 := args.foldl (fun ns a =>
      match a with
      | .node nid => if some nid ∈ ns then ns else ns ++ [some nid]
      | _ => ns) ch.nodes
    .ok { ch with nodes := ns2 }

/-- `FlowChart.defaultClass(classDef)` (part_001 lines 345-350): due to the
bitwise-or condition `classDef === null | !(classDef instanceof ClassDef)`,
any argument that is not a `ClassDef` silently clears the default class; a
`ClassDef` is copied (`ClassDef.from(classDef, "default")`) into the
default slot.  No path throws. -/
def defaultClassJS (H : Heap) (ch : Chart) (arg : JSVal) : Except String Chart :=
  match arg with
  | .cls cid =>
    let cd := H.classes.getD cid ⟨"", ⟨none, none, none, none, none⟩⟩
    .ok { ch with defaultClass := some cd.props }
  | _ => .ok { ch with defaultClass := none }

/-- `FlowChart.addClass(...classDefs)` (part_001 lines 210-218): throws if
any argument is not a `ClassDef` (before any mutation), then appends each
class not already present by identity. -/
def addClassJS (ch : Chart) (args : List JSVal) : Except String Chart :=
  if args.any (fun a => !isClsVal a) then
    .error "TypeError: classDefs must contain only ClassDef objects."
  else
    let cs2 := args.foldl (fun cs a =>
      match a with
      | .cls cid => if cid ∈ cs then cs else cs ++ [cid]
      | _ => cs) ch.classes
    .ok { ch with classes := cs2 }

/-- `FlowChart.addDirective(...directives)` (part_001 lines 249-257): throws
if any argument is not a `Directive` (before any mutation), then appends
each directive not already present by identity. -/
def addDirectiveJS (ch : Chart) (args : List JSVal) : Except String Chart :=
  if args.any (fun a => !isDirVal a) then
    .error "TypeError: directives must contain only Directive objects."
  else
    let ds2 := args.foldl (fun ds a =>
      match a with
      | .directive d => if d ∈ ds then ds else ds ++ [d]
      | _ => ds) ch.directives
    .ok { ch with directives := ds2 }

/-- `FlowChart.addStyle(classDef = null)` (part_001 lines 284-289): throws
on anything that is not a `ClassDef` (including the documented omitted-to-
clear case, since `null instanceof ClassDef` is false), otherwise stores the
reference as the subgraph container style. -/
def addStyleJS (ch : Chart) (arg : JSVal) : Except String Chart :=
  match arg with
  | .cls cid => .ok { ch with style := some cid }
  | _ => .error "TypeError: Requires a ClassDef object." 

/-- `FlowChart.addConnection(connection)` (part_001 lines 228-240) for one
already-type-checked connection: push the connection if not present by
identity, then pull in each endpoint node not already present.  A missing
endpoint descriptor throws a `TypeError` when its `.node` is read (after the
connection has been pushed; the `Except` error here discards that partial
mutation, which the source keeps). -/
def addConnectionJS (ch : Chart) (c : Conn) : Except String Chart :=
  let conns := if c ∈ ch.connections then ch.connections else ch.connections ++ [c]
  match c.fromEp with
  | none => .error "TypeError: Cannot read properties of undefined (reading 'node')"
  | some f =>
    let ns1 := if f.node ∈ ch.nodes then ch.nodes else ch.nodes ++ [f.node]
    match c.toEp with
    | none => .error "TypeError: Cannot read properties of undefined (reading 'node')"
    | some t =>
      let ns2 := if t.node ∈ ns1 then ns1 else ns1 ++ [t.node]
      .ok { ch with connections := conns, nodes := ns2 }

/-- `FlowChart.addConnection(...connections)` (part_001 lines 228-240) with
its variadic guard: any argument that is not a `Connection` throws before
any mutation; well-typed connections are then added in order. -/
def addConnectionsJS (ch : Chart) (args : List JSVal) : Except String Chart :=
  if args.any (fun a => !isConnVal a) then
    .error "TypeError: connections must contain only Connection objects."
  else
    args.foldlM (fun c a =>
      match a with
      | .conn cn => addConnectionJS c cn
      | _ => .ok c) ch

/-- `FlowChart.addSubgraph(...charts)` (part_001 lines 297-306), modelled
over the raw `#subgraphs` array as a list of JavaScript values, since this
method performs no type check: each non-null argument not already present
(by identity) is pushed first, and only then does
`for (const node of chart.nodes)` run, which throws a `TypeError` when the
argument is not a `FlowChart` (`undefined` is not iterable) - so a
wrong-kind argument is pushed into the collection before the call fails.  A
`null` argument is skipped by the push guard and then throws on the `nodes`
read.  On success the parent's node collection absorbs each subgraph node
that is non-null and not already present.  Returns the thrown error, if
any, with the collections after the call. -/
def addSubgraphJS (subs : List JSVal) (nodes : List (Option Nat)) :
    List JSVal → Option String × List JSVal × List (Option Nat)
  | [] => (none, subs, nodes)
  | a :: rest =>
    match a with
    | .subgraph g =>
      let subs2 := if JSVal.subgraph g ∈ subs then subs else subs ++ [JSVal.subgraph g]
      let nodes2 := g.nodes.foldl (fun ns x =>
        match x with
        | some n => if some n ∈ ns then ns else ns ++ [some n]
        | none => ns) nodes
      addSubgraphJS subs2 nodes2 rest
    | .nullv => (some "TypeError: Cannot read properties of null (reading 'nodes')", subs, nodes)
    | v =>
      let subs2 := if v ∈ subs then subs else subs ++ [v]
      (some "TypeError: chart.nodes is not iterable", subs2, nodes)

/-- An element of the adapter's normalized `machine.tags` array: a string, or
the `undefined` produced by wrapping an absent tag list, or the nested array
produced by wrapping an empty one. -/
inductive JSTag where
  | str (s : String)
  | undef
  | arr (l : List String)
deriving DecidableEq

/-- A transition entry of a state's `on` map: `{target, description}`. -/
structure Transition where
  target : String
  description : Option String
deriving DecidableEq

/-- One state of the machine description: optional `tags`/`type` keys (used
to look up the style table), optional description, and the `on` map
(`onMap` here; `on` is notation in Mathlib). -/
structure MState where
  tags : Option String
  type : Option String
  description : Option String
  onMap : Option (List (String × Transition))
deriving DecidableEq

/-- The state-machine description consumed by the adapter. -/
structure Machine where
  id : String
  tags : Option (List String)
  initial : Option String
  states : List (String × MState)
deriving DecidableEq

/-- A style-table entry: a `ClassDef` reference (class heap index) and a
shape name. -/
structure OptEntry where
  cls : Nat
  shape : String
deriving DecidableEq

/-- `key.replace(/\s/g, "_")`: every whitespace character becomes an
underscore. -/
def jsReplaceWs (s : String) : String :=
  String.map (fun c => if c = ' ' ∨ c = '\t' ∨ c = '\n' ∨ c = '\r' then '_' else c) s

/-- JavaScript `String.prototype.includes` for a nonempty pattern. -/
def jsIncludes (s pat : String) : Bool :=
  (s.splitOn pat).length != 1

/-- The adapter's `machine.tags.forEach` loop (part_000 lines 49-61): split
each tag on `:` and configure the directive (`curve:` sets a flowchart curve
option, `var:` merges theme variables).  Calling `split` on a non-string
element throws.  Returns the configured directive and the string tags. -/
def tagsPhase : List JSTag → DirectiveData → Except String (DirectiveData × List String)
  | [], d => .ok (d, [])
  | .undef :: _, _ =>
    .error "TypeError: Cannot read properties of undefined (reading 'split')"
  | .arr _ :: _, _ => .error "TypeError: value.split is not a function"
  | .str s :: rest, d =>
    let tag := s.splitOn ":"
    let step : Except String DirectiveData :=
      match tag.head? with
      | some "curve" => flowchartJS d [("curve", tag.get? 1)]
      | some "var" => .ok (variablesJS d ((tag.drop 1).map fun t =>
          let ps := t.splitOn "="
          (ps.headD "", ps.get? 1)))
      | _ => .ok d
    match step with
    | .error e => .error e
    | .ok d' =>
      match tagsPhase rest d' with
      | .error e => .error e
      | .ok (d'', ss) => .ok (d'', s :: ss)

/-- Looks up `options[key]` where `key` may be `undefined`. -/
def lookupO (options : List (String × OptEntry)) (o : Option String) : Option OptEntry :=
  o.bind fun k => options.lookup k

/-- The build state of the adapter's first states loop: the node heap under
construction, the `nodes` name map, and the chart. -/
structure StateBuild where
  heapNodes : List NodeData
  nmap : List (String × Nat)
  chart : Chart

/-- The adapter's first `Object.entries(machine.states).forEach` loop
(part_000 lines 65-73): create a node per state (id with whitespace replaced
by underscores, text from the description or the key), apply the style
table's class and shape when the state's `type`/`tags` hits the table
(registering the class on the chart), record it in the name map, and add it
to the chart. -/
def statesPhase (options : List (String × OptEntry)) :
    List (String × MState) → StateBuild → Except String StateBuild
  | [], b => .ok b
  | (key, v) :: rest, b =>
    let nid := b.heapNodes.length
    let base : NodeData := ⟨jsReplaceWs key, v.description.getD key, none, none⟩
    let styled : Except String (NodeData × List Nat) :=
      if (jsTruthyS v.type || jsTruthyS v.tags) &&
         ((lookupO options v.tags).isSome || (lookupO options v.type).isSome) then
        let lkey : Option String := match v.type with | some t => some t | none => v.tags
        match lookupO options lkey with
        | none => .error "TypeError: Cannot read properties of undefined (reading 'class')"
        | some e =>
          let cls2 := if e.cls ∈ b.chart.classes then b.chart.classes
            else b.chart.classes ++ [e.cls]
          if nodeShapeMatch e.shape then
            let nd := { base with nodeClass := some e.cls, shape := nodeShapeTable.lookup e.shape }
            .ok (nd, cls2)
          else .error "TypeError: Value must be a valid node shape."
      else .ok (base, b.chart.classes)
    match styled with
    | .error e => .error e
    | .ok (nd, cls2) =>
      let ns2 := if some nid ∈ b.chart.nodes then b.chart.nodes
        else b.chart.nodes ++ [some nid]
      let ch2 := { b.chart with classes := cls2, nodes := ns2 }
      statesPhase options rest ⟨b.heapNodes ++ [nd], b.nmap ++ [(key, nid)], ch2⟩

/-- The adapter's inner transition loop (part_000 lines 76-83): one
connection per event, from the state's node to the target's node (arrow at
the target), with the line style taken from the first machine tag containing
`"link"` and the transition description as the label when truthy. -/
def transPhase (nmap : List (String × Nat)) (tagsStrs : List String) (key : String) :
    List (String × Transition) → Chart → Except String Chart
  | [], ch => .ok ch
  | (_, link) :: rest, ch =>
    let conn : Conn :=
      { depth := 0,
        fromEp := some ⟨nmap.lookup key, false, "default"⟩,
        toEp := some ⟨nmap.lookup link.target, true, "default"⟩,
        linkStyle :=
          match tagsStrs.find? (fun t => jsIncludes t "link") with
          | some t => (t.splitOn ":").get? 1
          | none => none,
        linkText := if jsTruthyS link.description then link.description else none,
        linkClass := none }
    match addConnectionJS ch conn with
    | .error e => .error e
    | .ok ch' => transPhase nmap tagsStrs key rest ch'

/-- The adapter's second states loop (part_000 lines 74-84): skip states
without an `on` map, otherwise run the transition loop. -/
def onPhase (nmap : List (String × Nat)) (tagsStrs : List String) :
    List (String × MState) → Chart → Except String Chart
  | [], ch => .ok ch
  | (key, v) :: rest, ch =>
    match v.onMap with
    | none =>
      onPhase nmap tagsStrs rest ch
    | some links =>
      match transPhase nmap tagsStrs key links ch with
      | .error e => .error e
      | .ok ch' => onPhase nmap tagsStrs rest ch'

/-- The state-machine adapter `processStately` (part_000 lines 43-87, the
default export of `processStately.js`): builds the title block, normalizes
an absent or empty tag list by wrapping it in an array, configures the
directive from the tags, applies a white-stroke default link style, builds
one node per state and one connection per transition, and returns the title
concatenated with the rendered chart. -/
def processStately (classHeap : List ClassData) (machine : Machine)
    (options : List (String × OptEntry)) : Except String String :=
  let title := "---\ntitle: " ++ machine.id ++ "\n---\n"
  let chart0 := newFlowChart (some machine.id)
  let linkClass : StyleProps := ⟨none, none, some "white", none, none⟩
  let tagsArr : List JSTag :=
    match machine.tags with
    | none => [.undef]
    | some l => if l.length = 0 then [.arr []] else l.map .str
  match tagsPhase tagsArr ⟨none, none, none, none⟩ with
  | .error e => .error e
  | .ok (dir, tagsStrs) =>
    let chart1 := { chart0 with defaultLink := some linkClass, directives := [dir] }
    match statesPhase options machine.states ⟨[], [], chart1⟩ with
    | .error e => .error e
    | .ok b =>
      match onPhase b.nmap tagsStrs machine.states b.chart with
      | .error e => .error e
      | .ok chart2 =>
        match chartRender ⟨b.heapNodes, classHeap⟩ chart2 ⟨fun _ => false, 0⟩ with
        | .error e => .error e
        | .ok p => .ok (title ++ p.1)

/-- Two successive `render()` calls with no mutation in between: the pair of
produced strings. -/
def renderTwice (H : Heap) (ch : Chart) (st : RState) : Except String (String × String) :=
  match chartRender H ch st with
  | .error e => .error e
  | .ok (s1, st1) =>
    match chartRender H ch st1 with
    | .error e => .error e
    | .ok (s2, _) => .ok (s1, s2)

/-- A connection both of whose endpoint descriptors are present, carry
non-null nodes, and whose nodes are members of the given node collection. -/
def connOK (ns : List (Option Nat)) (c : Conn) : Bool :=
  match c.fromEp, c.toEp with
  | some f, some t =>
    match f.node, t.node with
    | some nf, some nt => decide (some nf ∈ ns) && decide (some nt ∈ ns)
    | _, _ => false
  | _, _ => false

/-- A subgraph that is named, whose node entries are non-null members of the
parent's node collection, and whose connections are well-formed relative to
the parent's node collection. -/
def subOK (ns : List (Option Nat)) (g : SubGraph) : Bool :=
  g.name.isSome &&
  g.nodes.all (fun x => match x with | some n => decide (some n ∈ ns) | none => false) &&
  g.connections.all (connOK ns)

/-- A chart in the closed state that `addNode`/`connect`/`addConnection`/
`addSubgraph` maintain at the time of addition: no null node entries, every
connection endpoint in the node collection, every subgraph named with its
nodes and connection endpoints covered by the parent's collection. -/
def chartOK (ch : Chart) : Bool :=
  ch.nodes.all Option.isSome &&
  ch.connections.all (connOK ch.nodes) &&
  ch.subgraphs.all (subOK ch.nodes)

/-- The node flags are contained in a node collection: any set flag belongs
to a listed node. -/
def FlagsIn (ns : List (Option Nat)) (st : RState) : Prop :=
  ∀ j, st.flags j = true → some j ∈ ns

/-- The all-flags-clear initial render state. -/
def freshState : RState := ⟨fun _ => false, 0⟩

/-- Heap for the two-node example: node `A` with text `Start`, node `B` with
text `End`, no shapes, no classes. -/
def exHeapC3 : Heap := ⟨[⟨"A", "Start", none, none⟩, ⟨"B", "End", none, none⟩], []⟩

/-- The example connection `A --> B`: no arrow at `A`, arrow at `B`, default
arrow styles, depth 0, no line style, label or link class. -/
def exConnC3 : Conn :=
  ⟨0, some ⟨some 0, false, "default"⟩, some ⟨some 1, true, "default"⟩, none, none, none⟩

/-- The example graph: direction `TB`, the one connection, both nodes, no
styles, directives or subgraphs. -/
def exChartC3 : Chart := ⟨"TB", [], [exConnC3], [some 0, some 1], [], none, none, none, none, []⟩

/-- A graph whose only content is one unnamed empty subgraph (buildable as
`new FlowChart().addSubgraph(new FlowChart())`). -/
def cexChartSub : Chart := ⟨"TD", [], [], [], [], none, none, none, none, [⟨none, [], [], none⟩]⟩

/-- Heap for the dangling-endpoint graph: one node with id `N`, text `T`. -/
def cexHeapDangling : Heap := ⟨[⟨"N", "T", none, none⟩], []⟩

/-- A self-loop connection on node 0 with an arrow at its target. -/
def cexConnDangling : Conn :=
  ⟨0, some ⟨some 0, false, "default"⟩, some ⟨some 0, true, "default"⟩, none, none, none⟩

/-- A graph holding that connection while its node collection does not
contain the endpoint node (reachable by re-targeting a connection after
`addConnection`): the node's flag is set during render but never reset. -/
def cexChartDangling : Chart :=
  ⟨"TD", [], [cexConnDangling], [], [], none, none, none, none, []⟩

/-- Heap for the render-twice witness: one node with id `X`, text `Hello`. -/
def wHeapC2 : Heap := ⟨[⟨"X", "Hello", none, none⟩], []⟩

/-- Witness graph: a self-loop on the node, the node in the collection, and
a named subgraph listing the same node. -/
def wChartC2 : Chart :=
  ⟨"LR", [], [⟨1, some ⟨some 0, false, "default"⟩, some ⟨some 0, true, "default"⟩, none, none, none⟩],
   [some 0], [], none, none, none, none, [⟨some "inner", [], [some 0], none⟩]⟩

/-- Heap with two label-less nodes `A` and `B` for the arrow-glyph examples. -/
def glyphHeap : Heap := ⟨[⟨"A", "", none, none⟩, ⟨"B", "", none, none⟩], []⟩

/-- A connection with an arrow at its `to` end whose arrow style is the
string `"cross"`. -/
def c9CrossConn : Conn :=
  ⟨0, some ⟨some 0, false, "default"⟩, some ⟨some 1, true, "cross"⟩, none, none, none⟩

/-- A connection with a default-style arrow at its `from` end. -/
def c9FromConn : Conn :=
  ⟨0, some ⟨some 0, true, "default"⟩, some ⟨some 1, false, "default"⟩, none, none, none⟩

/-- A connection with a default-style arrow at its `to` end. -/
def c9ToConn : Conn :=
  ⟨0, some ⟨some 0, false, "default"⟩, some ⟨some 1, true, "default"⟩, none, none, none⟩

/-- A style with only `fill` set. -/
def fillOnlyProps (v : String) : StyleProps := ⟨none, some v, none, none, none⟩

/-- A style with only `strokeDash` set, to the value `5 5`. -/
def dashOnlyProps : StyleProps := ⟨none, none, none, none, some "5 5"⟩

/-- The number of non-null properties of a style. -/
def styleCount (s : StyleProps) : Nat := (stylePairs s).countP fun p => p.2.isSome

/-- A freshly constructed directive: all fields null. -/
def freshDirective : DirectiveData := ⟨none, none, none, none⟩

/-- A chart that currently carries a default node class (red fill). -/
def c7Chart : Chart :=
  { newFlowChart none with defaultClass := some ⟨none, some "red", none, none, none⟩ }

/-- Heap with two distinct node objects that share the id string `a`. -/
def c8Heap : Heap := ⟨[⟨"a", "", none, none⟩, ⟨"a", "", none, none⟩], []⟩

/-- A freshly constructed connection: `new Connection()` before any `from`
or `to` call. -/
def c10FreshConn : Conn := ⟨0, none, none, none, none, none⟩

/-- Whether a connection is missing a usable endpoint: an endpoint
descriptor absent (`from`/`to` never called) or carrying a null node
(`from`/`to` called without a `ChartNode`). -/
def missingEndpoint (c : Conn) : Prop :=
  c.fromEp = none ∨ c.toEp = none ∨
  (∃ f, c.fromEp = some f ∧ f.node = none) ∨ (∃ t, c.toEp = some t ∧ t.node = none)

/-- The episode style table's class definitions (part_003 lines 4-30), with
the copy-generated names `class1..class4` in module evaluation order. -/
def episodeClassHeap : List ClassData :=
  [⟨"class1", ⟨some "white", some "black", some "green", none, none⟩⟩,
   ⟨"class2", ⟨some "white", some "black", some "blue", none, none⟩⟩,
   ⟨"class3", ⟨some "white", some "black", some "yellow", none, none⟩⟩,
   ⟨"reaction", ⟨none, some "red", none, none, none⟩⟩,
   ⟨"class4", ⟨some "white", some "black", some "red", none, none⟩⟩]

/-- The episode style table (part_003): tag name to class reference and
shape. -/
def episodeOptions : List (String × OptEntry) :=
  [("Introduction", ⟨0, "pill"⟩), ("Core", ⟨1, "default"⟩), ("Alternate", ⟨2, "hex"⟩),
   ("Antagonist Reaction", ⟨3, "trapezoid"⟩), ("final", ⟨4, "pill"⟩)]

/-- The machine of the adapter example: id `M1`, tag list absent, a single
state `S1` with no `on` map. -/
def c1Machine : Machine := ⟨"M1", none, none, [("S1", ⟨none, none, none, none⟩)]⟩

theorem nodeRender_state (H : Heap) (st : RState) (nid : Nat) :
    (nodeRender H st nid).2 = ⟨fun j => if j = nid then true else st.flags j, st.subCtr⟩ :=
  rfl

theorem nodeRender_flagsIn {ns : List (Option Nat)} {st : RState} (h : FlagsIn ns st)
    (H : Heap) {nid : Nat} (hm : some nid ∈ ns) : FlagsIn ns (nodeRender H st nid).2 := by
  intro j hj
  rw [nodeRender_state] at hj
  by_cases hje : j = nid
  · subst hje; exact hm
  · simp only [hje, if_false] at hj
    exact h j hj

theorem connRender_inv {ns : List (Option Nat)} {c : Conn} (hc : connOK ns c = true)
    (H : Heap) {st : RState} (h : FlagsIn ns st) :
    ∃ s st', connRender H c st = .ok (s, st') ∧ FlagsIn ns st' ∧ st'.subCtr = st.subCtr := by
  cases hf : c.fromEp with
  | none => simp [connOK, hf] at hc
  | some f =>
    cases ht : c.toEp with
    | none => simp [connOK, hf, ht] at hc
    | some t =>
      cases hfn : f.node with
      | none => simp [connOK, hf, ht, hfn] at hc
      | some nf =>
        cases htn : t.node with
        | none => simp [connOK, hf, ht, hfn, htn] at hc
        | some nt =>
          simp only [connOK, hf, ht, hfn, htn, Bool.and_eq_true, decide_eq_true_eq] at hc
          refine ⟨(nodeRender H st nf).1 ++
              (if f.arrow then getArrowStyle f.arrowStyle f.arrow else " ") ++
              lineBody (lineLen c.depth (f.arrow || t.arrow) (c.linkStyle == some "dotted"))
                c.linkStyle ++
              (if t.arrow then getArrowStyle t.arrowStyle (!t.arrow) else "") ++
              (if jsTruthyS c.linkText then "|" ++ c.linkText.getD "" ++ "| " else " ") ++
              (nodeRender H (nodeRender H st nf).2 nt).1,
            (nodeRender H (nodeRender H st nf).2 nt).2, ?_, ?_, ?_⟩
          · simp only [connRender, hf, ht, hfn, htn]
          · exact nodeRender_flagsIn (nodeRender_flagsIn h H hc.1) H hc.2
          · rw [nodeRender_state, nodeRender_state]

theorem renderListE_inv {α : Type} (f : α → RState → Except String (String × RState))
    (P : RState → Prop) (l : List α)
    (hall : ∀ a ∈ l, ∀ st, P st →
      ∃ s st', f a st = .ok (s, st') ∧ P st' ∧ st'.subCtr = st.subCtr) :
    ∀ st, P st →
      ∃ ss st', renderListE f l st = .ok (ss, st') ∧ P st' ∧ st'.subCtr = st.subCtr := by
  induction l with
  | nil => exact fun st h => ⟨[], st, rfl, h, rfl⟩
  | cons a as ih =>
    intro st hst
    obtain ⟨s, st1, he, hp1, hc1⟩ := hall a (by simp) st hst
    obtain ⟨ss, st2, he2, hp2, hc2⟩ := ih (fun b hb => hall b (by simp [hb])) st1 hp1
    refine ⟨s :: ss, st2, ?_, hp2, by rw [hc2, hc1]⟩
    simp only [renderListE, he, he2]

theorem nodeDecls_inv (H : Heap) {ns : List (Option Nat)} (l : List (Option Nat))
    (hl : ∀ x ∈ l, ∃ n, x = some n ∧ some n ∈ ns) :
    ∀ st, FlagsIn ns st →
      ∃ ss st', nodeDecls H l st = .ok (ss, st') ∧ FlagsIn ns st' ∧ st'.subCtr = st.subCtr := by
  induction l with
  | nil => exact fun st h => ⟨[], st, rfl, h, rfl⟩
  | cons x xs ih =>
    intro st hst
    obtain ⟨n, rfl, hn⟩ := hl x (by simp)
    have ih' := ih fun y hy => hl y (by simp [hy])
    by_cases hfl : st.flags n = true
    · obtain ⟨ss, st', he, hp, hc⟩ := ih' st hst
      exact ⟨ss, st', by simp only [nodeDecls, hfl, if_true]; exact he, hp, hc⟩
    · obtain ⟨ss, st', he, hp, hc⟩ := ih' (nodeRender H st n).2 (nodeRender_flagsIn hst H hn)
      refine ⟨(nodeRender H st n).1 :: ss, st', ?_, hp, ?_⟩
      · simp only [nodeDecls, hfl, Bool.false_eq_true, if_false, he]
      · rw [hc, nodeRender_state]

theorem subNodeFilter_inv (st : RState) {ns : List (Option Nat)} (l : List (Option Nat))
    (hl : ∀ x ∈ l, ∃ n, x = some n ∧ some n ∈ ns) :
    ∃ ids, subNodeFilter st l = .ok ids ∧ ∀ i ∈ ids, some i ∈ ns := by
  induction l with
  | nil => exact ⟨[], rfl, by simp⟩
  | cons x xs ih =>
    obtain ⟨n, rfl, hn⟩ := hl x (by simp)
    obtain ⟨ids, he, hmem⟩ := ih fun y hy => hl y (by simp [hy])
    refine ⟨if st.flags n then ids else n :: ids, ?_, ?_⟩
    · simp only [subNodeFilter, he]
    · by_cases hfl : st.flags n = true
      · simpa [hfl] using hmem
      · simp only [hfl, if_false]
        intro i hi
        rcases List.mem_cons.mp hi with h1 | h1
        · subst h1; exact hn
        · exact hmem i h1

theorem resetNodes_inv (l : List (Option Nat)) (hl : ∀ x ∈ l, x.isSome) :
    ∀ st, ∃ st', resetNodes l st = .ok st' ∧ st'.subCtr = st.subCtr ∧
      ∀ j, st'.flags j = if some j ∈ l then false else st.flags j := by
  induction l with
  | nil => exact fun st => ⟨st, rfl, rfl, fun j => by simp⟩
  | cons x xs ih =>
    intro st
    obtain ⟨n, rfl⟩ := Option.isSome_iff_exists.mp (hl x (by simp))
    obtain ⟨st', he, hc, hfl⟩ :=
      ih (fun y hy => hl y (by simp [hy])) ⟨fun j => if j = n then false else st.flags j, st.subCtr⟩
    refine ⟨st', he, hc, fun j => ?_⟩
    rw [hfl j]
    by_cases h1 : some j ∈ xs
    · simp [h1]
    · by_cases h2 : j = n
      · subst h2; simp [h1]
      · simp [h1, h2, List.mem_cons]

theorem lookupNodeIds_ok (l : List (Option Nat)) (hl : ∀ x ∈ l, x.isSome) :
    ∃ ids, lookupNodeIds l = .ok ids := by
  induction l with
  | nil => exact ⟨[], rfl⟩
  | cons x xs ih =>
    obtain ⟨n, rfl⟩ := Option.isSome_iff_exists.mp (hl x (by simp))
    obtain ⟨ids, he⟩ := ih fun y hy => hl y (by simp [hy])
    exact ⟨n :: ids, by simp only [lookupNodeIds, he]⟩

theorem classesPart_ok (H : Heap) {ns : List (Option Nat)} (hl : ∀ x ∈ ns, x.isSome)
    (cids : List Nat) : ∃ s, classesPart H ns cids = .ok s := by
  induction cids with
  | nil => exact ⟨"", rfl⟩
  | cons cid rest ih =>
    obtain ⟨ids, hids⟩ := lookupNodeIds_ok ns hl
    obtain ⟨tl, htl⟩ := ih
    simp only [classesPart, classLine, hids, htl]
    exact ⟨_, rfl⟩

theorem subRenderF_inv {ns : List (Option Nat)} {g : SubGraph} (hg : subOK ns g = true)
    (H : Heap) {st : RState} (h : FlagsIn ns st) :
    ∃ s st', subRenderF H g st = .ok (s, st') ∧ FlagsIn ns st' ∧ st'.subCtr = st.subCtr := by
  simp only [subOK, Bool.and_eq_true] at hg
  obtain ⟨⟨hname, hnodes⟩, hconns⟩ := hg
  obtain ⟨nm, hnm⟩ := Option.isSome_iff_exists.mp hname
  have hnodes' : ∀ x ∈ g.nodes, ∃ n, x = some n ∧ some n ∈ ns := by
    intro x hx
    have hx' := List.all_eq_true.mp hnodes x hx
    cases x with
    | none => simp at hx'
    | some n => exact ⟨n, rfl, by simpa using hx'⟩
  obtain ⟨connStrs, st1, he1, hp1, hctr1⟩ := renderListE_inv
    (fun c st => (connRender H c st).map (fun p => ("  " ++ p.1, p.2))) (FlagsIn ns)
    g.connections
    (by
      intro c hc st0 hst0
      obtain ⟨s, st', he, hp, hcc⟩ := connRender_inv (List.all_eq_true.mp hconns c hc) H hst0
      exact ⟨"  " ++ s, st', by simp only [he, Except.map], hp, hcc⟩) st h
  obtain ⟨ids, hids, hmem⟩ := subNodeFilter_inv st1 g.nodes hnodes'
  obtain ⟨nodeStrs, st2, he2, hp2, hctr2⟩ := renderListE_inv
    (fun nid st => .ok (nodeRender H st nid)) (FlagsIn ns) ids
    (by
      intro nid hnid st0 hst0
      exact ⟨(nodeRender H st0 nid).1, (nodeRender H st0 nid).2, rfl,
        nodeRender_flagsIn hst0 H (hmem nid hnid), by rw [nodeRender_state]⟩) st1 hp1
  obtain ⟨st3, he3, hctr3, hfl3⟩ :=
    resetNodes_inv g.nodes (fun x hx => by obtain ⟨n, rfl, _⟩ := hnodes' x hx; rfl) st2
  have hp3 : FlagsIn ns st3 := by
    intro j hj
    rw [hfl3 j] at hj
    by_cases hmm : some j ∈ g.nodes
    · simp [hmm] at hj
    · rw [if_neg hmm] at hj
      exact hp2 j hj
  have hex : ∃ s, subRenderF H g st = .ok (s, st3) := by
    simp only [subRenderF, hnm, he1, hids, he2, he3]
    exact ⟨_, rfl⟩
  obtain ⟨s, hs⟩ := hex
  exact ⟨s, st3, hs, hp3, by rw [hctr3, hctr2, hctr1]⟩

theorem chartRender_stable (H : Heap) (ch : Chart) (st : RState)
    (hOK : chartOK ch = true) (hf : st.flags = fun _ => false) :
    ∃ out, chartRender H ch st = .ok (out, st) := by
  simp only [chartOK, Bool.and_eq_true] at hOK
  obtain ⟨⟨hnall, hcall⟩, hsall⟩ := hOK
  have hnodes : ∀ x ∈ ch.nodes, x.isSome := fun x hx => List.all_eq_true.mp hnall x hx
  have hnodes' : ∀ x ∈ ch.nodes, ∃ n, x = some n ∧ some n ∈ ch.nodes := by
    intro x hx
    obtain ⟨n, rfl⟩ := Option.isSome_iff_exists.mp (hnodes x hx)
    exact ⟨n, rfl, hx⟩
  have hfin : FlagsIn ch.nodes st := by
    intro j hj
    rw [hf] at hj
    simp at hj
  obtain ⟨connStrs, st1, he1, hp1, hc1⟩ := renderListE_inv (connRender H) (FlagsIn ch.nodes)
    ch.connections
    (fun c hc st0 hst0 => connRender_inv (List.all_eq_true.mp hcall c hc) H hst0) st hfin
  obtain ⟨declStrs, st2, he2, hp2, hc2⟩ := nodeDecls_inv H ch.nodes hnodes' st1 hp1
  obtain ⟨subStrs, st3, he3, hp3, hc3⟩ := renderListE_inv (subRenderF H) (FlagsIn ch.nodes)
    ch.subgraphs
    (fun g hg st0 hst0 => subRenderF_inv (List.all_eq_true.mp hsall g hg) H hst0) st2 hp2
  obtain ⟨st4, he4, hc4, hfl4⟩ := resetNodes_inv ch.nodes hnodes st3
  obtain ⟨clsStr, he5⟩ := classesPart_ok H hnodes ch.classes
  have hst4 : st4 = st := by
    have h1 : st4.flags = st.flags := by
      funext j
      have hstf : st.flags j = false := by rw [hf]
      rw [hfl4 j, hstf]
      by_cases hm : some j ∈ ch.nodes
      · rw [if_pos hm]
      · rw [if_neg hm]
        cases hflj : st3.flags j with
        | false => rfl
        | true => exact absurd (hp3 j hflj) hm
    have h2 : st4.subCtr = st.subCtr := by rw [hc4, hc3, hc2, hc1]
    cases st4; cases st
    simp only [RState.mk.injEq]
    exact ⟨h1, h2⟩
  have hex : ∃ out, chartRender H ch st = .ok (out, st4) := by
    simp only [chartRender, he1, he2, he3, he4, he5]
    exact ⟨_, rfl⟩
  rw [hst4] at hex
  exact hex

theorem lineBody_length (n : Nat) (s : Option String) : (lineBody n s).length = n := by
  simp [lineBody, String.length]

theorem lineLen_dotted_odd (d : Nat) (a : Bool) : Odd (lineLen d a true) := by
  rw [Nat.odd_iff]
  have key : ∀ l : Nat, (if l % 2 == 0 && true then l + 1 else l) % 2 = 1 := by
    intro l
    by_cases h : l % 2 = 0
    · simp [h, Nat.add_mod]
    · have h1 : l % 2 = 1 := by omega
      simp [h1]
  cases a
  · exact key (3 + d)
  · exact key (3 + d - 1)

/-- C1: the state-machine adapter applied to a machine with the single state
`S1` (no `on` map), an absent tag list, and the default style table is
claimed to return normally with a title line and a one-node graph; the code
instead wraps the absent list as `[undefined]` and throws a `TypeError` when
it calls `split` on that element.  This theorem evaluates the adapter at the
failing input. -/
theorem c1_adapter_throws :
    processStately episodeClassHeap c1Machine episodeOptions =
      .error "TypeError: Cannot read properties of undefined (reading 'split')" := rfl

/-- C3: the graph with nodes `A` (text `Start`) and `B` (text `End`), one
connection from `A` to `B` with an arrowhead at `B`, no styles, and
direction `TB` renders to text containing the literal line `flowchart TB`
and the edge line `A[Start] --> B[End]`. -/
theorem c3_example_render :
    ∃ out st', chartRender exHeapC3 exChartC3 freshState = .ok (out, st') ∧
      (∃ pre post, out = pre ++ "flowchart TB\n" ++ post) ∧
      (∃ pre post, out = pre ++ "A[Start] --> B[End]\n" ++ post) := by
  refine ⟨"flowchart TB\nA[Start] --> B[End]\n", _, rfl,
    ⟨"", "A[Start] --> B[End]\n", rfl⟩, ⟨"flowchart TB\n", "", rfl⟩⟩

/-- C4, counterexample: the claim says the constructor succeeds for every
non-negative integer depth and fails for every non-integer depth; but
`new Connection(0)` throws (because `parseInt(0)` is falsy) and
`new Connection(2.5)` succeeds, storing `2.5`. -/
theorem c4_counterexample :
    connectionNew (some 0) = .error "If included, depth must be an integer." ∧
    connectionNew (some (5 / 2 : ℚ)) = .ok (5 / 2 : ℚ) := by
  constructor
  · rfl
  · norm_num [connectionNew, jsTrunc]

/-- C4, amended: the constructor defaults to depth 0 when the argument is
omitted, succeeds for every nonzero integer depth (storing it), throws for
depth 0, and for non-integer depths throws exactly when the magnitude is
below 1 (truncation toward zero is 0), storing the non-integer value
unchanged otherwise. -/
theorem c4_constructor_depth :
    (connectionNew none = .ok 0) ∧
    (∀ n : ℤ, n ≠ 0 → connectionNew (some (n : ℚ)) = .ok ((n : ℚ))) ∧
    (connectionNew (some 0) = .error "If included, depth must be an integer.") ∧
    (∀ q : ℚ, 1 ≤ |q| → connectionNew (some q) = .ok q) ∧
    (∀ q : ℚ, |q| < 1 → q ≠ 0 →
      connectionNew (some q) = .error "If included, depth must be an integer.") := by
  refine ⟨rfl, ?_, rfl, ?_, ?_⟩
  · intro n hn
    have htr : jsTrunc (n : ℚ) = n := by
      unfold jsTrunc
      split
      · exact Int.floor_intCast n
      · exact Int.ceil_intCast n
    simp [connectionNew, htr, hn, Int.cast_eq_zero]
  · intro q hq
    have hq0 : q ≠ 0 := by
      intro h
      rw [h] at hq
      norm_num at hq
    have htr : jsTrunc q ≠ 0 := by
      unfold jsTrunc
      split
      · next h =>
        have h1 : (1 : ℤ) ≤ ⌊q⌋ := by
          rw [abs_of_nonneg h] at hq
          exact Int.le_floor.mpr (by exact_mod_cast hq)
        omega
      · next h =>
        push_neg at h
        have h1 : ⌈q⌉ ≤ (-1 : ℤ) := by
          rw [abs_of_neg h] at hq
          refine Int.ceil_le.mpr ?_
          push_cast
          linarith
        omega
    simp [connectionNew, htr, hq0]
  · intro q hq hq0
    have htr : jsTrunc q = 0 := by
      unfold jsTrunc
      split
      · next h =>
        rw [Int.floor_eq_zero_iff]
        constructor
        · exact h
        · rw [abs_of_nonneg h] at hq
          exact hq
      · next h =>
        push_neg at h
        rw [Int.ceil_eq_zero_iff]
        constructor
        · rw [abs_of_neg h] at hq
          linarith
        · linarith
    simp [connectionNew, htr]

/-- C4, witness: depth 3 is accepted and stored; depth one-half is
rejected. -/
theorem c4_witness :
    connectionNew (some ((3 : ℤ) : ℚ)) = .ok (((3 : ℤ) : ℚ)) ∧
    connectionNew (some (1 / 2 : ℚ)) = .error "If included, depth must be an integer." :=
  ⟨c4_constructor_depth.2.1 3 (by decide),
   c4_constructor_depth.2.2.2.2 (1 / 2) (by rw [abs_lt]; constructor <;> norm_num) (by norm_num)⟩

/-- C6: for every connection with line style `dotted`, every depth from 0
through 5 and every combination of arrow presence on the two ends, the
rendered line body has odd length. -/
theorem c6_dotted_odd : ∀ d : Nat, d ≤ 5 → ∀ fa ta : Bool,
    Odd ((lineBody (lineLen d (fa || ta) true) (some "dotted")).length) := by
  intro d _ fa ta
  rw [lineBody_length]
  exact lineLen_dotted_odd d (fa || ta)

/-- C6, witness: depth 2 with no arrows gives a dotted body of odd length. -/
theorem c6_witness :
    Odd ((lineBody (lineLen 2 (false || false) true) (some "dotted")).length) :=
  c6_dotted_odd 2 (by decide) false false

/-- C5, counterexample: the claim says `ClassDef.render` spells `strokeDash`
as `stroke-dasharray`, but it emits the key unchanged: a node style with only
`strokeDash` set renders the token `strokeDash:5 5`, not
`stroke-dasharray:5 5`. -/
theorem c5_counterexample :
    classDefRender "c" dashOnlyProps = "\nclassDef c strokeDash:5 5\n" ∧
    classDefRender "c" dashOnlyProps ≠ "\nclassDef c stroke-dasharray:5 5\n" := by
  constructor
  · rfl
  · decide

/-- C5, amended: both renderers list exactly the non-null properties;
`LinkDef.render` spells `strokeWidth` as `stroke-width` and `strokeDash` as
`stroke-dasharray`, while `ClassDef.render` translates only `strokeWidth`
and passes `strokeDash` (and the other keys) through unchanged; a style with
only `fill` set renders a declaration with the single token `fill:<value>`. -/
theorem c5_style_render :
    (∀ name v, classDefRender name (fillOnlyProps v) =
      "\nclassDef " ++ name ++ " " ++ ("fill:" ++ v) ++ "\n") ∧
    (∀ v, linkDefRender ["default"] (fillOnlyProps v) =
      "\nlinkStyle " ++ "default" ++ " " ++ ("fill:" ++ v)) ∧
    (∀ s w, s.strokeWidth = some w →
      ("stroke-width:" ++ w) ∈ classDefStyles s ∧ ("stroke-width:" ++ w) ∈ linkDefStyles s) ∧
    (∀ s d, s.strokeDash = some d →
      ("strokeDash:" ++ d) ∈ classDefStyles s ∧ ("stroke-dasharray:" ++ d) ∈ linkDefStyles s) ∧
    (∀ s, (classDefStyles s).length = styleCount s ∧ (linkDefStyles s).length = styleCount s) := by
  refine ⟨?_, ?_, ?_, ?_, ?_⟩
  · intro name v
    rfl
  · intro v
    rfl
  · intro s w hw
    constructor
    · exact List.mem_filterMap.mpr ⟨("strokeWidth", some w), by simp [stylePairs, hw], by simp⟩
    · exact List.mem_filterMap.mpr ⟨("strokeWidth", some w), by simp [stylePairs, hw], by simp⟩
  · intro s d hd
    constructor
    · exact List.mem_filterMap.mpr ⟨("strokeDash", some d), by simp [stylePairs, hd], by simp⟩
    · exact List.mem_filterMap.mpr ⟨("strokeDash", some d), by simp [stylePairs, hd], by simp⟩
  · intro s
    rcases s with ⟨c, f, st, w, dsh⟩
    cases c <;> cases f <;> cases st <;> cases w <;> cases dsh <;>
      simp [classDefStyles, linkDefStyles, stylePairs, styleCount]

/-- C5, witness: a style with stroke width `2px` and stroke dash `5 5` set
lists `stroke-width:2px` in the node-style output and `stroke-dasharray:5 5`
in the edge-style output. -/
theorem c5_witness :
    ("stroke-width:2px" ∈ classDefStyles ⟨none, none, none, some "2px", some "5 5"⟩) ∧
    ("stroke-dasharray:5 5" ∈ linkDefStyles ⟨none, none, none, some "2px", some "5 5"⟩) :=
  ⟨(c5_style_render.2.2.1 ⟨none, none, none, some "2px", some "5 5"⟩ "2px" rfl).1,
   (c5_style_render.2.2.2.1 ⟨none, none, none, some "2px", some "5 5"⟩ "5 5" rfl).2⟩

/-- C7, counterexample: the claim says every wrong-kind argument to a typed
setter fails with a type error and leaves state unchanged; but
`FlowChart.defaultClass` given the number 5 returns normally and clears the
default class, and `Directive.curve` given an invalid name throws after
initializing the flowchart-options object (observable mutation). -/
theorem c7_counterexample :
    defaultClassJS ⟨[], []⟩ c7Chart (.num 5) = .ok { c7Chart with defaultClass := none } ∧
    (curveJS freshDirective (some "bogus")).1 = some "Value must match a valid curve option." ∧
    (curveJS freshDirective (some "bogus")).2 ≠ freshDirective := by
  refine ⟨rfl, rfl, by decide⟩

/-- C7, amended: the variadic add-operations guarded by an instanceof check
(`addClass`, `addConnection`, `addDirective`, `addNode`) and the `addStyle`
setter validate their arguments before any mutation and throw a type error
on a wrong-kind argument.  Three operations deviate: `addSubgraph` performs
no validation and pushes a wrong-kind non-null argument into the subgraph
collection before throwing when it iterates the argument's `nodes`;
`defaultClass` given a non-`ClassDef` silently clears the default class
instead of throwing; and `Directive.curve` given a value outside the curve
enumeration throws after materializing an empty flowchart-options object
when none existed. -/
theorem c7_type_errors :
    (∀ (ch : Chart) (args : List JSVal), args.any (fun a => !isNodeVal a) = true →
      addNodeJS ch args = .error "TypeError: nodes must contain only ChartNode objects.") ∧
    (∀ (ch : Chart) (args : List JSVal), args.any (fun a => !isClsVal a) = true →
      addClassJS ch args = .error "TypeError: classDefs must contain only ClassDef objects.") ∧
    (∀ (ch : Chart) (args : List JSVal), args.any (fun a => !isConnVal a) = true →
      addConnectionsJS ch args =
        .error "TypeError: connections must contain only Connection objects.") ∧
    (∀ (ch : Chart) (args : List JSVal), args.any (fun a => !isDirVal a) = true →
      addDirectiveJS ch args = .error "TypeError: directives must contain only Directive objects.") ∧
    (∀ (ch : Chart) (arg : JSVal), (∀ cid, arg ≠ .cls cid) →
      addStyleJS ch arg = .error "TypeError: Requires a ClassDef object.") ∧
    (∀ (H : Heap) (ch : Chart) (arg : JSVal), (∀ cid, arg ≠ .cls cid) →
      defaultClassJS H ch arg = .ok { ch with defaultClass := none }) ∧
    (∀ (d : DirectiveData) (v : String), v ∉ curveList →
      (curveJS d (some v)).1 = some "Value must match a valid curve option." ∧
      (curveJS d (some v)).2 = { d with flowchart := some (d.flowchart.getD []) }) ∧
    (∀ (subs : List JSVal) (nodes : List (Option Nat)) (v : JSVal),
      (∀ g, v ≠ .subgraph g) → v ≠ .nullv →
      addSubgraphJS subs nodes [v] =
        (some "TypeError: chart.nodes is not iterable",
         if v ∈ subs then subs else subs ++ [v], nodes)) := by
  refine ⟨?_, ?_, ?_, ?_, ?_, ?_, ?_, ?_⟩
  · intro ch args h
    simp only [addNodeJS, h, if_true]
  · intro ch args h
    simp only [addClassJS, h, if_true]
  · intro ch args h
    simp only [addConnectionsJS, h, if_true]
  · intro ch args h
    simp only [addDirectiveJS, h, if_true]
  · intro ch arg h
    cases arg with
    | cls cid => exact absurd rfl (h cid)
    | node nid => rfl
    | conn c => rfl
    | directive d => rfl
    | subgraph g => rfl
    | num n => rfl
    | str s => rfl
    | nullv => rfl
  · intro H ch arg h
    cases arg with
    | cls cid => exact absurd rfl (h cid)
    | node nid => rfl
    | conn c => rfl
    | directive d => rfl
    | subgraph g => rfl
    | num n => rfl
    | str s => rfl
    | nullv => rfl
  · intro d v h
    constructor
    · simp only [curveJS, if_neg h]
    · simp only [curveJS, if_neg h]
  · intro subs nodes v hsub hnull
    cases v with
    | subgraph g => exact absurd rfl (hsub g)
    | nullv => exact absurd rfl hnull
    | node nid => rfl
    | cls cid => rfl
    | conn c => rfl
    | directive d => rfl
    | num n => rfl
    | str s => rfl

/-- C7, witness: a wrong-kind argument to each guarded adder and to
`addStyle` throws; `defaultClass` with the number 7 clears the default;
`curve` with `zigzag` reports the validation error; `addSubgraph` with the
number 9 throws with the 9 already pushed into the collection. -/
theorem c7_witness :
    addNodeJS (newFlowChart none) [.str "x"] =
      .error "TypeError: nodes must contain only ChartNode objects." ∧
    addClassJS (newFlowChart none) [.num 1] =
      .error "TypeError: classDefs must contain only ClassDef objects." ∧
    addConnectionsJS (newFlowChart none) [.nullv] =
      .error "TypeError: connections must contain only Connection objects." ∧
    addDirectiveJS (newFlowChart none) [.str "d"] =
      .error "TypeError: directives must contain only Directive objects." ∧
    addStyleJS (newFlowChart none) (.num 2) = .error "TypeError: Requires a ClassDef object." ∧
    defaultClassJS ⟨[], []⟩ (newFlowChart none) (.num 7) =
      .ok { newFlowChart none with defaultClass := none } ∧
    (curveJS freshDirective (some "zigzag")).1 = some "Value must match a valid curve option." ∧
    addSubgraphJS [] [] [.num 9] =
      (some "TypeError: chart.nodes is not iterable", [JSVal.num 9], []) :=
  by
  refine ⟨c7_type_errors.1 (newFlowChart none) [.str "x"] (by decide),
    c7_type_errors.2.1 (newFlowChart none) [.num 1] (by decide),
    c7_type_errors.2.2.1 (newFlowChart none) [.nullv] (by decide),
    c7_type_errors.2.2.2.1 (newFlowChart none) [.str "d"] (by decide),
    c7_type_errors.2.2.2.2.1 (newFlowChart none) (.num 2) (fun cid h => JSVal.noConfusion h),
    c7_type_errors.2.2.2.2.2.1 ⟨[], []⟩ (newFlowChart none) (.num 7)
      (fun cid h => JSVal.noConfusion h),
    (c7_type_errors.2.2.2.2.2.2.1 freshDirective "zigzag" (by decide)).1, ?_⟩
  have h := c7_type_errors.2.2.2.2.2.2.2 [] [] (JSVal.num 9)
    (fun g h => JSVal.noConfusion h) (fun h => JSVal.noConfusion h)
  simpa using h

/-- C8, counterexample: the claim says node ids are pairwise distinct in
every graph; but duplicates are rejected only by object identity, so adding
two distinct node objects that share the id string `a` leaves both in the
collection. -/
theorem c8_counterexample :
    ∃ ch', addNodeJS (newFlowChart none) [.node 0, .node 1] = .ok ch' ∧
      some 0 ∈ ch'.nodes ∧ some 1 ∈ ch'.nodes ∧ (0 : Nat) ≠ 1 ∧
      (c8Heap.nodes.getD 0 ⟨"", "", none, none⟩).id =
        (c8Heap.nodes.getD 1 ⟨"", "", none, none⟩).id := by
  refine ⟨_, rfl, by decide, by decide, by decide, rfl⟩

/-- C8, amended: collections deduplicate by object identity, not by id:
adding a node object already present leaves the graph unchanged, while
distinct node objects with equal id strings can coexist (see the
counterexample). -/
theorem c8_identity_dedup (ch : Chart) (nid : Nat) (h : some nid ∈ ch.nodes) :
    addNodeJS ch [.node nid] = .ok ch := by
  simp only [addNodeJS, List.any_cons, List.any_nil, isNodeVal, Bool.not_true, Bool.or_false,
    Bool.false_eq_true, if_false, List.foldl_cons, List.foldl_nil, if_pos h]

/-- C8, witness: re-adding the node already stored as entry 3 leaves the
graph unchanged. -/
theorem c8_witness :
    addNodeJS { newFlowChart none with nodes := [some 3] } [.node 3] =
      .ok { newFlowChart none with nodes := [some 3] } :=
  c8_identity_dedup { newFlowChart none with nodes := [some 3] } 3 (by decide)

/-- C9, counterexample: the claim says an arrow style `"cross"` renders as
the glyph `x`; but the enumeration's key is `"x"`, so `"cross"` falls
through to the default arrow: a connection with a `"cross"`-styled arrow at
its target renders as `A --> B`, which contains no `x` glyph. -/
theorem c9_counterexample :
    (∃ st', connRender glyphHeap c9CrossConn freshState = .ok ("A --> B", st')) ∧
    'x' ∉ "A --> B".toList := by
  exact ⟨⟨_, rfl⟩, by decide⟩

/-- C9, amended: arrow style `"round"` renders as `o`, arrow style `"x"`
(not `"cross"`) renders as `x`, and every other style (including `"cross"`)
renders the directional default `<`/`>` pointing toward the arrowed end (a
from-end arrow renders `A<-- B`, a to-end arrow renders `A --> B`). -/
theorem c9_arrow_glyphs :
    (∀ l : Bool, getArrowStyle "round" l = "o" ∧ getArrowStyle "x" l = "x") ∧
    (∀ (s : String) (l : Bool), s ≠ "round" → s ≠ "x" →
      getArrowStyle s l = if l then "<" else ">") ∧
    (∃ st', connRender glyphHeap c9FromConn freshState = .ok ("A<-- B", st')) ∧
    (∃ st', connRender glyphHeap c9ToConn freshState = .ok ("A --> B", st')) := by
  refine ⟨fun l => ⟨rfl, rfl⟩, ?_, ⟨_, rfl⟩, ⟨_, rfl⟩⟩
  intro s l h1 h2
  unfold getArrowStyle
  rw [if_neg h1, if_neg h2]

/-- C9, witness: the style `"cross"` with an arrow pointing left renders the
default left arrow. -/
theorem c9_witness : getArrowStyle "cross" true = if true then "<" else ">" :=
  c9_arrow_glyphs.2.1 "cross" true (by decide) (by decide)

/-- C10: `Connection.render` throws a `TypeError` whenever `from` and `to`
have not both been called with a node (a missing endpoint descriptor or a
null endpoint node), and `FlowChart.addConnection` throws when the given
connection is missing an endpoint descriptor. -/
theorem c10_render_requires_endpoints :
    (∀ (H : Heap) (c : Conn) (st : RState), missingEndpoint c →
      ∃ e, connRender H c st = .error e) ∧
    (∀ (ch : Chart) (c : Conn), c.fromEp = none ∨ c.toEp = none →
      ∃ e, addConnectionJS ch c = .error e) := by
  constructor
  · intro H c st h
    cases hf : c.fromEp with
    | none =>
      exact ⟨"TypeError: Cannot read properties of undefined", by simp only [connRender, hf]⟩
    | some f =>
      cases ht : c.toEp with
      | none =>
        exact ⟨"TypeError: Cannot read properties of undefined", by simp only [connRender, hf, ht]⟩
      | some t =>
        cases hfn : f.node with
        | none =>
          exact ⟨"TypeError: Cannot read properties of null",
            by simp only [connRender, hf, ht, hfn]⟩
        | some nf =>
          cases htn : t.node with
          | none =>
            exact ⟨"TypeError: Cannot read properties of null",
              by simp only [connRender, hf, ht, hfn, htn]⟩
          | some nt =>
            exfalso
            rcases h with h | h | ⟨f', hf', hfn'⟩ | ⟨t', ht', htn'⟩
            · rw [h] at hf; exact Option.noConfusion hf
            · rw [h] at ht; exact Option.noConfusion ht
            · rw [hf'] at hf
              rw [← Option.some_inj.mp hf] at hfn
              rw [hfn'] at hfn
              exact Option.noConfusion hfn
            · rw [ht'] at ht
              rw [← Option.some_inj.mp ht] at htn
              rw [htn'] at htn
              exact Option.noConfusion htn
  · intro ch c h
    rcases h with h | h
    · exact ⟨"TypeError: Cannot read properties of undefined (reading 'node')",
        by simp only [addConnectionJS, h]⟩
    · cases hf : c.fromEp with
      | none =>
        exact ⟨"TypeError: Cannot read properties of undefined (reading 'node')",
          by simp only [addConnectionJS, hf]⟩
      | some f =>
        exact ⟨"TypeError: Cannot read properties of undefined (reading 'node')",
          by simp only [addConnectionJS, hf, h]⟩

/-- C10, witness: a fresh connection (no `from`/`to` call) fails to render
and fails to be added. -/
theorem c10_witness :
    (∃ e, connRender (⟨[], []⟩ : Heap) c10FreshConn freshState = .error e) ∧
    (∃ e, addConnectionJS (newFlowChart none) c10FreshConn = .error e) :=
  ⟨c10_render_requires_endpoints.1 ⟨[], []⟩ c10FreshConn freshState (Or.inl rfl),
   c10_render_requires_endpoints.2 (newFlowChart none) c10FreshConn (Or.inl rfl)⟩

/-- C2, counterexample: the claim quantifies over every graph; but a graph
holding an unnamed subgraph draws a fresh generated name on each render, and
a graph whose connection references a node missing from the node collection
(reachable by re-targeting an endpoint after `addConnection`) marks that
node's emitted flag without ever resetting it, so the second render emits a
bare id. -/
theorem c2_counterexample :
    (∃ p, renderTwice (⟨[], []⟩ : Heap) cexChartSub freshState = .ok p ∧ p.1 ≠ p.2) ∧
    (∃ p, renderTwice cexHeapDangling cexChartDangling freshState = .ok p ∧ p.1 ≠ p.2) := by
  constructor
  · exact ⟨("flowchart TD\n\n\nsubgraph sub1\n\nend\n",
      "flowchart TD\n\n\nsubgraph sub2\n\nend\n"), rfl, by decide⟩
  · exact ⟨("flowchart TD\nN[T] --> N\n", "flowchart TD\nN --> N\n"), rfl, by decide⟩

/-- C2, amended: for every graph all of whose node entries are non-null,
whose connection endpoints are nodes listed in the graph's node collection,
and whose subgraphs are all named with their nodes and connection endpoints
also covered by the parent's node collection (the state `addNode`,
`connect`, `addConnection` and `addSubgraph` establish at addition time),
rendering twice in succession from a clean flag state yields byte-identical
strings. -/
theorem c2_render_twice_identical (H : Heap) (ch : Chart) (st : RState)
    (hOK : chartOK ch = true) (hf : st.flags = fun _ => false) :
    ∃ out, renderTwice H ch st = .ok (out, out) := by
  obtain ⟨out, he⟩ := chartRender_stable H ch st hOK hf
  exact ⟨out, by simp only [renderTwice, he]⟩

/-- C2, witness: a one-node graph with a self-loop connection and a named
subgraph renders identically twice. -/
theorem c2_witness : ∃ out, renderTwice wHeapC2 wChartC2 freshState = .ok (out, out) :=
  c2_render_twice_identical wHeapC2 wChartC2 freshState (by decide) rfl
